import Mathlib

/-!
# Verification of the mcp-winauto window/element automation engine

Shallow embedding of `src/automation.py` (class `WindowManager` and its
module-level helpers) and of the tool layer in `src/server.py`.

Conventions of the embedding:
* pywinauto / Win32 element trees are modelled by the inductive `Element`:
  each element carries its `element_info` (name, control_type, automation_id,
  all strings — Python `None` attributes are normalised by the source through
  `or ""` wherever they matter) and its list of `children()`.
* Python exceptions that the engine raises and dispatches on are modelled by
  `AutoErr`, keeping the exception class (`LookupError`, `RuntimeError`,
  `IndexError`, `ValueError`) and the message string, since the source
  special-cases failures by class and by substring of the message
  (`"timed out" in str(exc)`).
* Python string helpers used by the source (`in`, `split`, `strip`,
  `lower`) are embedded as structurally recursive functions over the
  character list of the string, so that the kernel can evaluate them on
  concrete inputs.
* Fallible platform calls whose outcome depends on the live application
  (pattern invocations, `exists()`, `is_minimized()`, window enumeration)
  are modelled as explicit outcome data carried in the state/environment
  records, and the control flow of the Python source is reproduced over
  those outcomes.
-/

/-- `element_info` of a pywinauto wrapper / `_Win32ElementInfo`: the three
attributes the engine reads (`name`, `control_type`, `automation_id`). -/
structure ElementInfo where
  name : String
  control_type : String
  automation_id : String
deriving DecidableEq, Repr

/-- A UI element: its `element_info` together with its `children()` list. -/
inductive Element where
  | node (info : ElementInfo) (children : List Element)

def Element.info : Element → ElementInfo
  | .node i _ => i

def Element.children : Element → List Element
  | .node _ cs => cs

mutual

/-- All strict descendants of an element, in pre-order depth-first order
(each child followed by its own subtree).  This is the visit order of the
recursive `for child in element.children()` loops of the source and the
order assumed for pywinauto `descendants()`. -/
def Element.strictDesc : Element → List Element
  | .node _ cs => strictDescList cs

def strictDescList : List Element → List Element
  | [] => []
  | c :: cs => c :: c.strictDesc ++ strictDescList cs

end

/-- Python exceptions raised by the engine, by class and message. -/
inductive AutoErr where
  | lookupError (msg : String)
  | runtimeError (msg : String)
  | indexError (msg : String)
  | valueError (msg : String)
  | otherError (msg : String)
deriving DecidableEq, Repr

/-- The message text of an exception (Python `str(exc)` / `f"{exc}"`). -/
def AutoErr.msg : AutoErr → String
  | .lookupError m => m
  | .runtimeError m => m
  | .indexError m => m
  | .valueError m => m
  | .otherError m => m

/-- `needle` occurs at the start of `haystack` (both as character lists). -/
def leadsWith : List Char → List Char → Bool
  | [], _ => true
  | _ :: _, [] => false
  | a :: as, b :: bs => a == b && leadsWith as bs

/-- `needle` occurs somewhere in `haystack` (character lists). -/
def occursIn (needle : List Char) : List Char → Bool
  | [] => needle.isEmpty
  | h :: t => leadsWith needle (h :: t) || occursIn needle t

/-- Python's substring test `needle in haystack`. -/
def containsSub (haystack needle : String) : Bool :=
  occursIn needle.data haystack.data

/-!
## Selector resolver (`WindowManager.find_element`)

A selector is the JSON dict accepted by `find_element`: optional keys
`title`, `control_type`, `auto_id` and a nested `parent` selector.  A key
present in the dict with a string value is modelled as `some v`, an absent
key as `none` (the source treats a key that is present with value `null`
as satisfying `has_criteria` but then ignores it when matching; the tool
layer only ever produces string-valued keys, and this embedding models the
string-or-absent case).
-/

inductive Selector where
  | mk (title control_type auto_id : Option String) (parent : Option Selector)

def Selector.title : Selector → Option String
  | .mk t _ _ _ => t

def Selector.control_type : Selector → Option String
  | .mk _ c _ _ => c

def Selector.auto_id : Selector → Option String
  | .mk _ _ a _ => a

def Selector.parent : Selector → Option Selector
  | .mk _ _ _ p => p

/-- One arm of the `if title is not None and info.name != title` chain:
an unset field imposes no constraint, a set field must match exactly. -/
def fieldOk : Option String → String → Bool
  | none, _ => true
  | some v, x => x == v

/-- A node matches when every set selector field equals the corresponding
`element_info` attribute (mirrors the `if/elif/else` chain of `_search`). -/
def selMatches (t c a : Option String) (i : ElementInfo) : Bool :=
  fieldOk t i.name && fieldOk c i.control_type && fieldOk a i.automation_id

mutual

/-- The nested `_search` function of `find_element`: for each child, first
test the child itself, then recurse into it, returning the first hit. -/
def searchEl (t c a : Option String) : Element → Option Element
  | .node _ cs => searchChildren t c a cs

def searchChildren (t c a : Option String) : List Element → Option Element
  | [] => none
  | ch :: rest =>
    if selMatches t c a ch.info then some ch
    else
      match searchEl t c a ch with
      | some r => some r
      | none => searchChildren t c a rest

end

def noCriteriaMsg : String :=
  "Selector must contain at least one of: title, control_type, auto_id"

/-- `WindowManager.find_element(selector)`, with `root` standing for
`self.window` (the current target).  The source's not-found message also
interpolates the Python repr of the selector dict; the embedding keeps
only the fixed prefix of that message. -/
def find_element (root : Element) : Selector → Except AutoErr Element
  | .mk t c a none =>
    if t.isSome || c.isSome || a.isSome then
      match searchEl t c a root with
      | some m => .ok m
      | none => .error (.lookupError "Element not found")
    else
      .error (.lookupError noCriteriaMsg)
  | .mk t c a (some ps) =>
    if t.isSome || c.isSome || a.isSome then
      match find_element root ps with
      | .error e => .error e
      | .ok searchFrom =>
        match searchEl t c a searchFrom with
        | some m => .ok m
        | none => .error (.lookupError "Element not found")
    else
      .error (.lookupError noCriteriaMsg)

/-- Modelled from the spec: "Traversal is pre-order depth-first over
`children()` ... First match in traversal order is returned."  Stated
directly as `find?` over the pre-order listing of strict descendants, to
be compared with the recursive `_search` of the source. -/
def specResolve (t c a : Option String) (searchRoot : Element) : Option Element :=
  searchRoot.strictDesc.find? (fun e => selMatches t c a e.info)

mutual

theorem searchEl_eq_find (t c a : Option String) :
    ∀ e : Element, searchEl t c a e =
      e.strictDesc.find? (fun x => selMatches t c a x.info)
  | .node i cs => by
    rw [searchEl, Element.strictDesc, searchChildren_eq_find t c a cs]

theorem searchChildren_eq_find (t c a : Option String) :
    ∀ l : List Element, searchChildren t c a l =
      (strictDescList l).find? (fun x => selMatches t c a x.info)
  | [] => by rw [searchChildren, strictDescList]; rfl
  | ch :: rest => by
    rw [searchChildren, strictDescList]
    by_cases h : selMatches t c a ch.info
    · simp [h, List.find?_cons_of_pos, List.cons_append]
    · have hb : (selMatches t c a ch.info) = false := by
        simpa using h
      rw [if_neg (by simp [hb])]
      rw [List.find?_append, List.find?_cons_of_neg _ (by simp [hb]),
        searchEl_eq_find t c a ch, searchChildren_eq_find t c a rest]
      cases (ch.strictDesc.find? (fun x => selMatches t c a x.info)) <;> rfl

end

/-- `has_criteria` of `find_element`. -/
def hasCriteria (s : Selector) : Bool :=
  s.title.isSome || s.control_type.isSome || s.auto_id.isSome

mutual

def Element.esize : Element → Nat
  | .node _ cs => 1 + esizeList cs

def esizeList : List Element → Nat
  | [] => 0
  | c :: cs => c.esize + esizeList cs

end

mutual

theorem esize_lt_of_mem_strictDesc :
    ∀ (e x : Element), x ∈ e.strictDesc → x.esize < e.esize
  | .node _ cs, x, h => by
    rw [Element.strictDesc] at h
    have := esize_le_of_mem_strictDescList cs x h
    rw [Element.esize]; omega

theorem esize_le_of_mem_strictDescList :
    ∀ (l : List Element) (x : Element), x ∈ strictDescList l → x.esize ≤ esizeList l
  | [], x, h => by rw [strictDescList] at h; cases h
  | c :: cs, x, h => by
    rw [strictDescList] at h
    rw [esizeList]
    rcases List.mem_append.mp h with h1 | h2
    · rcases List.mem_cons.mp h1 with rfl | h3
      · omega
      · have := esize_lt_of_mem_strictDesc c x h3; omega
    · have := esize_le_of_mem_strictDescList cs x h2; omega

end

theorem ne_of_mem_strictDesc {e x : Element} (h : x ∈ e.strictDesc) : x ≠ e := by
  intro heq
  subst heq
  exact absurd (esize_lt_of_mem_strictDesc x x h) (lt_irrefl _)

/-- C3: for every element tree and every selector in which none of title,
control_type, automation_id is set (including the empty selector and a
selector containing only a parent), `find_element` fails with NotFound
(`LookupError`) without inspecting the tree: the result is the same fixed
error for every root, and the parent selector is not even resolved. -/
theorem c3_no_criteria_fails_notFound (root : Element) (sel : Selector)
    (ht : sel.title = none) (hc : sel.control_type = none) (ha : sel.auto_id = none) :
    find_element root sel = .error (.lookupError noCriteriaMsg) := by
  cases sel with
  | mk t c a p =>
    simp only [Selector.title] at ht
    simp only [Selector.control_type] at hc
    simp only [Selector.auto_id] at ha
    subst ht; subst hc; subst ha
    cases p <;> simp [find_element]

/-- Witness for C3: the selector that contains only a `parent` key (and the
parent itself has criteria) still fails with the fixed NotFound error. -/
theorem c3_witness :
    find_element (.node ⟨"w", "Window", ""⟩ [.node ⟨"x", "Button", "ok"⟩ []])
      (.mk none none none (some (.mk (some "x") none none none))) =
      .error (.lookupError noCriteriaMsg) :=
  c3_no_criteria_fails_notFound _ _ rfl rfl rfl

/-- C4: for every tree and selector with at least one field set, resolution
returns the first pre-order depth-first match (over `children()`) of the
conjunction of the set fields, searching below the current target, or below
the resolved parent when one is present; no match is NotFound.  Stated as a
refinement against `specResolve`, the spec-side first-pre-order-match
function. -/
theorem c4_resolution_is_first_preorder_match (root : Element) (sel : Selector)
    (h : hasCriteria sel = true) :
    (sel.parent = none →
      find_element root sel =
        match specResolve sel.title sel.control_type sel.auto_id root with
        | some m => Except.ok m
        | none => Except.error (.lookupError "Element not found")) ∧
    (∀ p, sel.parent = some p →
      find_element root sel =
        match find_element root p with
        | .error e => Except.error e
        | .ok pr =>
          match specResolve sel.title sel.control_type sel.auto_id pr with
          | some m => Except.ok m
          | none => Except.error (.lookupError "Element not found")) := by
  cases sel with
  | mk t c a p =>
    have hcond : (t.isSome || c.isSome || a.isSome) = true := by
      simpa [hasCriteria, Selector.title, Selector.control_type, Selector.auto_id] using h
    constructor
    · intro hp
      simp only [Selector.parent] at hp
      subst hp
      simp [find_element, hcond, specResolve, searchEl_eq_find, Selector.title,
        Selector.control_type, Selector.auto_id]
    · intro p' hp
      simp only [Selector.parent] at hp
      subst hp
      cases hfe : find_element root p' with
      | error e =>
        simp [find_element, hcond, hfe]
      | ok pr =>
        simp [find_element, hcond, hfe, specResolve, searchEl_eq_find, Selector.title,
          Selector.control_type, Selector.auto_id]

/-- Witness for C4: a tree where the first pre-order match for
title "B" is the nested grandchild reached before the later sibling. -/
theorem c4_witness :
    hasCriteria (.mk (some "B") none none none) = true ∧
    find_element
        (.node ⟨"R", "Window", ""⟩
          [.node ⟨"A", "Pane", ""⟩ [.node ⟨"B", "Button", "inner"⟩ []],
           .node ⟨"B", "Button", "outer"⟩ []])
        (.mk (some "B") none none none) =
      match specResolve (some "B") none none
          (.node ⟨"R", "Window", ""⟩
            [.node ⟨"A", "Pane", ""⟩ [.node ⟨"B", "Button", "inner"⟩ []],
             .node ⟨"B", "Button", "outer"⟩ []]) with
      | some m => Except.ok m
      | none => Except.error (.lookupError "Element not found") :=
  ⟨rfl,
    (c4_resolution_is_first_preorder_match
      (.node ⟨"R", "Window", ""⟩
        [.node ⟨"A", "Pane", ""⟩ [.node ⟨"B", "Button", "inner"⟩ []],
         .node ⟨"B", "Button", "outer"⟩ []])
      (.mk (some "B") none none none) (by rfl)).1 rfl⟩

/-- C10: resolution never returns the search root itself (the current
target, or the resolved parent when a parent selector is present), even
when the root satisfies every set field: any returned element is a strict
descendant of the search root. -/
theorem c10_result_strictly_below_root (root : Element) (sel : Selector) (e : Element)
    (h : find_element root sel = .ok e) :
    (sel.parent = none → e ∈ root.strictDesc ∧ e ≠ root) ∧
    (∀ p, sel.parent = some p →
      ∃ pr, find_element root p = .ok pr ∧ e ∈ pr.strictDesc ∧ e ≠ pr) := by
  cases sel with
  | mk t c a p =>
    cases hcond : (t.isSome || c.isSome || a.isSome) with
    | false =>
      cases p <;> simp [find_element, hcond] at h
    | true =>
      constructor
      · intro hp
        simp only [Selector.parent] at hp
        subst hp
        simp only [find_element, hcond, if_true] at h
        cases hs : searchEl t c a root with
        | none => simp [hs] at h
        | some m =>
          simp only [hs] at h
          cases h
          rw [searchEl_eq_find] at hs
          have hmem := List.mem_of_find?_eq_some hs
          exact ⟨hmem, ne_of_mem_strictDesc hmem⟩
      · intro p' hp
        simp only [Selector.parent] at hp
        subst hp
        simp only [find_element, hcond, if_true] at h
        cases hfe : find_element root p' with
        | error e' => simp [hfe] at h
        | ok pr =>
          simp only [hfe] at h
          cases hs : searchEl t c a pr with
          | none => simp [hs] at h
          | some m =>
            simp only [hs] at h
            cases h
            rw [searchEl_eq_find] at hs
            have hmem := List.mem_of_find?_eq_some hs
            exact ⟨pr, rfl, hmem, ne_of_mem_strictDesc hmem⟩

/-!
## Bounded executor (`_run_with_timeout` and the module-level `_executor`)

The source runs each potentially-blocking call on the single worker of a
module-level `ThreadPoolExecutor(max_workers=1)` and waits for it with
`future.result(timeout)`.  Wall-clock time is abstracted to the two-way
outcome "finishes within the deadline" / "does not" (`Op`): a call queued
behind a stuck worker, or a call that itself hangs, makes
`future.result(timeout)` raise `TimeoutError`; the handler then rebinds the
module-level `_executor` to a fresh executor (the stuck jobs stay on the
abandoned one) and raises `RuntimeError` with `timeoutMsg`.  A call whose
function raises its own exception within the deadline has that exception
re-raised unchanged by `future.result`, without replacing the executor.
-/

/-- The message raised on timeout (the source interpolates `timeout=5`). -/
def timeoutMsg : String :=
  "Operation timed out after 5s. A modal dialog may be blocking the target application."

/-- Behaviour of a submitted unit of work relative to the timeout. -/
inductive Op (α : Type) where
  | completes (v : α)
  | raises (e : AutoErr)
  | hangs

/-- State of the module-level executor: how many previously submitted jobs
are still stuck on its single worker (a fresh executor has none). -/
structure ExecutorState where
  stuckJobs : Nat
deriving DecidableEq, Repr

def freshExecutor : ExecutorState := ⟨0⟩

def _run_with_timeout (s : ExecutorState) (op : Op α) :
    Except AutoErr α × ExecutorState :=
  if s.stuckJobs ≠ 0 then
    (.error (.runtimeError timeoutMsg), freshExecutor)
  else
    match op with
    | .completes v => (.ok v, s)
    | .raises e => (.error e, s)
    | .hangs => (.error (.runtimeError timeoutMsg), freshExecutor)

/-- C5: the bounded executor returns an in-time result unchanged; a timeout
surfaces as the distinguished RuntimeError whose message contains
"timed out" (the marker every caller tests), while an operation's own
exception surfaces unchanged; and on timeout the worker is replaced, so a
call submitted immediately afterwards completes instead of queuing behind
the stuck one.  (The "never blocks beyond the timeout" clause is the
totality of the discrete-time model: a hanging operation yields the
timeout error rather than the operation's result.) -/
theorem c5_bounded_executor_timeout (α : Type) (v : α) (s : ExecutorState) :
    (_run_with_timeout freshExecutor (Op.completes v) = (.ok v, freshExecutor)) ∧
    (_run_with_timeout s (Op.hangs (α := α)) =
      (.error (.runtimeError timeoutMsg), freshExecutor)) ∧
    (containsSub timeoutMsg "timed out" = true) ∧
    (∀ e, _run_with_timeout freshExecutor (Op.raises (α := α) e) =
      (.error e, freshExecutor)) ∧
    (_run_with_timeout (_run_with_timeout freshExecutor (Op.hangs (α := α))).2
        (Op.completes v) = (.ok v, freshExecutor)) := by
  refine ⟨rfl, ?_, by decide, fun e => rfl, rfl⟩
  by_cases h : s.stuckJobs = 0 <;> simp [_run_with_timeout, h, freshExecutor]

/-!
## Dialog detection (`WindowManager._find_dialog`)

`EngineState` carries the `WindowManager` instance fields (`_app` as the
connected process id, `_window`, `_main_handle`) together with the outcome
data of the Win32 calls the methods make: `topWindows` is the top-level
window list visited by `EnumWindows` in enumeration order (`none` models
the enumeration raising, which the source swallows), and
`MainWindowBehavior` is the observable behaviour of the pywinauto
`self._window` specification (`existsResult = none` models `exists()`
raising; `minimized = .val b` models `wrapper_object().is_minimized()`
returning `b`, with a wrapper lacking the `is_minimized` attribute folded
into `.val false` since the `hasattr` guard then skips the check). -/

structure Win32Window where
  hwnd : Nat
  pid : Nat
  visible : Bool
deriving DecidableEq, Repr

/-- The element returned as the current target: either a Win32 dialog
wrapper (`_Win32ElementWrapper(dialog_hwnd)`) or the pywinauto main-window
specification `self._window`. -/
inductive TargetElement where
  | rawElement (hwnd : Nat)
  | mainWindow
deriving DecidableEq, Repr

inductive MinimizedOutcome where
  | val (b : Bool)
  | raisesRuntime (msg : String)
  | raisesOther
deriving DecidableEq, Repr

structure MainWindowBehavior where
  existsResult : Option Bool
  minimized : MinimizedOutcome
deriving DecidableEq, Repr

structure EngineState where
  appPid : Option Nat
  mainWindow : Option MainWindowBehavior
  mainHandle : Option Nat
  topWindows : Option (List Win32Window)
deriving DecidableEq, Repr

def _find_dialog (s : EngineState) : Option TargetElement :=
  match s.appPid, s.mainHandle with
  | some pid, some mh =>
    match s.topWindows with
    | none => none
    | some ws =>
      match ws.find? (fun w => w.pid == pid && w.hwnd != mh && w.visible) with
      | some w => some (.rawElement w.hwnd)
      | none => none
  | _, _ => none

/-- C6: dialog detection returns `none` without a connection, on an
enumeration failure, or when no visible top-level window of the connected
process other than the tracked main window exists; otherwise it returns
the first such window in enumeration order wrapped as a raw Win32 element.
It is a total function, so an enumeration failure is never propagated. -/
theorem c6_find_dialog_first_other_window (s : EngineState) :
    (s.appPid = none ∨ s.mainHandle = none → _find_dialog s = none) ∧
    (s.topWindows = none → _find_dialog s = none) ∧
    (∀ pid mh ws, s.appPid = some pid → s.mainHandle = some mh →
      s.topWindows = some ws →
      _find_dialog s =
        (ws.find? (fun w => w.pid == pid && w.hwnd != mh && w.visible)).map
          (fun w => TargetElement.rawElement w.hwnd)) := by
  obtain ⟨appPid, mainWindow, mainHandle, topWindows⟩ := s
  refine ⟨?_, ?_, ?_⟩
  · rintro (h | h) <;> simp only at h <;> subst h
    · rfl
    · cases appPid <;> rfl
  · intro h
    simp only at h
    subst h
    cases appPid <;> cases mainHandle <;> rfl
  · intro pid mh ws h1 h2 h3
    simp only at h1 h2 h3
    subst h1; subst h2; subst h3
    simp only [_find_dialog]
    cases ws.find? (fun w => w.pid == pid && w.hwnd != mh && w.visible) <;> rfl

/-- Witness for C6: a disconnected state detects nothing, and a connected
state whose enumeration visits an invisible window, a window of another
process, the main window, and finally a visible dialog of the connected
process returns that dialog. -/
theorem c6_witness :
    _find_dialog ⟨none, none, none, none⟩ = none ∧
    _find_dialog ⟨some 4, none, some 1,
        some [⟨3, 4, false⟩, ⟨2, 9, true⟩, ⟨1, 4, true⟩, ⟨7, 4, true⟩]⟩ =
      some (.rawElement 7) := by
  constructor
  · exact (c6_find_dialog_first_other_window ⟨none, none, none, none⟩).1 (Or.inl rfl)
  · rw [(c6_find_dialog_first_other_window _).2.2 4 1
      [⟨3, 4, false⟩, ⟨2, 9, true⟩, ⟨1, 4, true⟩, ⟨7, 4, true⟩] rfl rfl rfl]
    rfl

/-!
## Target resolution (the `WindowManager.window` property)
-/

def notConnectedMsg : String := "No app connected. Call connect_app first."

def windowGoneMsg : String := "Connected window no longer exists."

def minimizedMsg : String :=
  "Window is minimized. Restore it before performing operations."

/-- The `window` property: NotConnected check, then dialog override, then
existence check (any `exists()` failure or `False` result is reduced to
`windowGoneMsg` by the source's `except` clause), then minimized check
(a `RuntimeError` from the check propagates, any other exception there is
swallowed and the main window is returned). -/
def window (s : EngineState) : Except AutoErr TargetElement :=
  match s.appPid, s.mainWindow with
  | some _, some mw =>
    match _find_dialog s with
    | some d => .ok d
    | none =>
      match mw.existsResult with
      | some true =>
        match mw.minimized with
        | .val true => .error (.runtimeError minimizedMsg)
        | .raisesRuntime m => .error (.runtimeError m)
        | _ => .ok .mainWindow
      | _ => .error (.runtimeError windowGoneMsg)
  | _, _ => .error (.runtimeError notConnectedMsg)

/-- C2: current-target resolution fails with NotConnected when no
connection exists; otherwise a detected dialog is returned and overrides
everything else; with no dialog the main window is returned, failing with
WindowGone when it no longer exists (or its existence check raises) and
with WindowMinimized when it reports minimized. -/
theorem c2_current_target_resolution (s : EngineState) :
    (s.appPid = none ∨ s.mainWindow = none →
      window s = .error (.runtimeError notConnectedMsg)) ∧
    (∀ mw, s.appPid ≠ none → s.mainWindow = some mw →
      (∀ d, _find_dialog s = some d → window s = .ok d) ∧
      (_find_dialog s = none →
        (mw.existsResult ≠ some true →
          window s = .error (.runtimeError windowGoneMsg)) ∧
        (mw.existsResult = some true → mw.minimized = .val true →
          window s = .error (.runtimeError minimizedMsg)) ∧
        (mw.existsResult = some true →
          (mw.minimized = .val false ∨ mw.minimized = .raisesOther) →
          window s = .ok .mainWindow))) := by
  obtain ⟨appPid, mainWindow, mainHandle, topWindows⟩ := s
  constructor
  · rintro (h | h) <;> simp only at h <;> subst h
    · rfl
    · cases appPid <;> rfl
  · intro mw happ hmw
    simp only at happ hmw
    subst hmw
    obtain ⟨pid, rfl⟩ : ∃ pid, appPid = some pid := by
      cases appPid with
      | none => exact absurd rfl happ
      | some pid => exact ⟨pid, rfl⟩
    constructor
    · intro d hd
      simp [window, hd]
    · intro hd
      refine ⟨?_, ?_, ?_⟩
      · intro hex
        simp only [window, hd]
      · intro hex hmin
        simp [window, hd, hex, hmin]
      · rintro hex (hmin | hmin) <;> simp [window, hd, hex, hmin]

/-- Witness for C2: a disconnected engine fails with NotConnected, a
connected engine with a visible extra window returns it as the dialog
override, and one with no extra window and a live, non-minimized main
window returns the main window. -/
theorem c2_witness :
    window ⟨none, none, none, none⟩ =
      .error (.runtimeError notConnectedMsg) ∧
    window ⟨some 4, some ⟨some true, .val false⟩, some 1,
        some [⟨1, 4, true⟩, ⟨7, 4, true⟩]⟩ = .ok (.rawElement 7) ∧
    window ⟨some 4, some ⟨some true, .val false⟩, some 1,
        some [⟨1, 4, true⟩]⟩ = .ok .mainWindow := by
  refine ⟨?_, ?_, ?_⟩
  · exact (c2_current_target_resolution ⟨none, none, none, none⟩).1 (Or.inl rfl)
  · exact ((c2_current_target_resolution
      ⟨some 4, some ⟨some true, .val false⟩, some 1,
        some [⟨1, 4, true⟩, ⟨7, 4, true⟩]⟩).2 ⟨some true, .val false⟩
      (by simp) rfl).1 (.rawElement 7) rfl
  · exact (((c2_current_target_resolution
      ⟨some 4, some ⟨some true, .val false⟩, some 1,
        some [⟨1, 4, true⟩]⟩).2 ⟨some true, .val false⟩
      (by simp) rfl).2 rfl).2.2 rfl (Or.inl rfl)

/-- Witness for C10: the root itself matches title "X", yet resolution
returns the (also matching) child, which is strictly below the root. -/
theorem c10_witness :
    Element.node ⟨"X", "Window", ""⟩ [] ∈
      (Element.node ⟨"X", "Window", ""⟩ [.node ⟨"X", "Window", ""⟩ []]).strictDesc ∧
    Element.node ⟨"X", "Window", ""⟩ [] ≠
      Element.node ⟨"X", "Window", ""⟩ [.node ⟨"X", "Window", ""⟩ []] :=
  (c10_result_strictly_below_root
    (.node ⟨"X", "Window", ""⟩ [.node ⟨"X", "Window", ""⟩ []])
    (.mk (some "X") none none none)
    (.node ⟨"X", "Window", ""⟩ []) rfl).1 rfl

/-!
## UI tree dump (`WindowManager.get_ui_tree`)

The nested `_walk` appends one line per element, indents with two spaces
per depth level, truncates names to 50 characters, and recurses into
`children()` only while `depth < max_depth` (an exception from `children()`
is swallowed, skipping that subtree; the embedding's trees have total
`children`, so that handler is not reachable here).  `control_type`, `name`
and `automation_id` are already-normalised strings (`or ""` in the source).
-/

/-- `name[:50]` applied when `len(name) > 50` (both count code points). -/
def truncName (s : String) : String :=
  if s.data.length > 50 then ⟨s.data.take 50⟩ else s

/-- One output line: `{indent}{ControlType}  Name="{Name}"  AutoId="{AutomationId}"`. -/
def treeLine (i : ElementInfo) (depth : Nat) : String :=
  String.mk (List.replicate (2 * depth) ' ') ++ i.control_type ++
    "  Name=\"" ++ truncName i.name ++ "\"  AutoId=\"" ++ i.automation_id ++ "\""

mutual

def walkTree (maxDepth : Nat) : Element → Nat → List String
  | .node i cs, depth =>
    treeLine i depth ::
      (if depth < maxDepth then walkChildren maxDepth cs (depth + 1) else [])

def walkChildren (maxDepth : Nat) : List Element → Nat → List String
  | [], _ => []
  | c :: cs, depth => walkTree maxDepth c depth ++ walkChildren maxDepth cs depth

end

def get_ui_tree (root : Element) (maxDepth : Nat) : String :=
  String.intercalate "\n" (walkTree maxDepth root 0)

theorem walkChildren_depth_limit (cs : List Element) :
    walkChildren 1 cs 1 = cs.map (fun c => treeLine c.info 1) := by
  induction cs with
  | nil => rfl
  | cons c cs ih =>
    cases c with
    | node i ds =>
      rw [walkChildren, walkTree, ih]
      simp [Element.info]

/-- C7: with `max_depth = 1` the dump is exactly one depth-0 line for the
root and one depth-1 line per direct child, nothing deeper; each line is
`{indent}{control_type}  Name="{name}"  AutoId="{auto_id}"` with an indent
of exactly two spaces per depth level, and the printed name is truncated
to at most 50 characters. -/
theorem c7_ui_tree_depth_one (i : ElementInfo) (cs : List Element) :
    walkTree 1 (.node i cs) 0 =
      treeLine i 0 :: cs.map (fun c => treeLine c.info 1) ∧
    get_ui_tree (.node i cs) 1 =
      String.intercalate "\n"
        (treeLine i 0 :: cs.map (fun c => treeLine c.info 1)) ∧
    (∀ j d, treeLine j d =
      String.mk (List.replicate (2 * d) ' ') ++ j.control_type ++
        "  Name=\"" ++ truncName j.name ++ "\"  AutoId=\"" ++
        j.automation_id ++ "\"") ∧
    (∀ d, String.mk (List.replicate (2 * (d + 1)) ' ') =
      "  " ++ String.mk (List.replicate (2 * d) ' ')) ∧
    (∀ s, (truncName s).length ≤ 50) := by
  have hwalk : walkTree 1 (.node i cs) 0 =
      treeLine i 0 :: cs.map (fun c => treeLine c.info 1) := by
    rw [walkTree, if_pos (by omega), walkChildren_depth_limit]
  refine ⟨hwalk, ?_, fun j d => rfl, ?_, ?_⟩
  · rw [get_ui_tree, hwalk]
  · intro d
    rw [show 2 * (d + 1) = 2 + 2 * d by ring, List.replicate_add]
    rfl
  · intro s
    rw [truncName]
    by_cases h : s.data.length > 50
    · rw [if_pos h]
      show (s.data.take 50).length ≤ 50
      simp
    · rw [if_neg h]
      show s.data.length ≤ 50
      omega

/-!
## Grid row selection (`WindowManager.select_grid_row`)

The grid element is the already-resolved element (`self.find_element`
result); the per-row outcomes of the platform calls the fallbacks make
(`iface_selection_item.Select()` on the row, on its first cell, and
`_run_with_timeout(target_row.click_input)`) are carried in `GridEnv`.
The `rowClick` field is the observed result of the wrapped click call.
-/

/-- Python `str.lower()` (ASCII case mapping suffices for the literals the
source compares against). -/
def pyLower (s : String) : String :=
  ⟨s.data.map Char.toLower⟩

/-- The row filter of `select_grid_row`: control type "Custom" or
"DataItem", name not containing "トップ", and lowercased name not containing
"Header" (the source tests the capitalised literal against the lowercased
name, so that last test never rejects anything). -/
def isGridRow (c : Element) : Bool :=
  (c.info.control_type == "Custom" || c.info.control_type == "DataItem") &&
    !(containsSub c.info.name "トップ") &&
    !(containsSub (pyLower c.info.name) "Header")

structure GridEnv where
  rowSelect : Element → Bool
  cellSelect : Element → Bool
  rowClick : Element → Except AutoErr Unit

/-- Side effects of `select_grid_row` that touch a row. -/
inductive GridAction where
  | selectAttempt (rowName : String)
  | cellSelectAttempt (rowName : String)
  | clickAttempt (rowName : String)
deriving DecidableEq, Repr

def gridRowMsg (row_index : Int) (ct nm : String) : String :=
  "Selected row " ++ toString row_index ++ " in " ++ ct ++ " '" ++ nm ++ "'"

def gridRangeMsg (row_index : Int) (rowCount : Nat) (ct nm : String) : String :=
  "Row index " ++ toString row_index ++ " out of range (0-" ++
    toString ((rowCount : Int) - 1) ++ ") in " ++ ct ++ " '" ++ nm ++ "'"

def select_grid_row (env : GridEnv) (g : Element) (row_index : Int) :
    Except AutoErr String × List GridAction :=
  let ct := g.info.control_type
  let nm := g.info.name
  let rows := g.children.filter isGridRow
  if h : row_index < 0 ∨ (rows.length : Int) ≤ row_index then
    (.error (.indexError (gridRangeMsg row_index rows.length ct nm)), [])
  else
    let target := rows.get ⟨row_index.toNat, by omega⟩
    let rn := target.info.name
    if env.rowSelect target then
      (.ok (gridRowMsg row_index ct nm), [.selectAttempt rn])
    else
      match target.children with
      | cell :: _ =>
        if env.cellSelect cell then
          (.ok (gridRowMsg row_index ct nm),
           [.selectAttempt rn, .cellSelectAttempt rn])
        else
          match env.rowClick target with
          | .ok _ =>
            (.ok (gridRowMsg row_index ct nm),
             [.selectAttempt rn, .cellSelectAttempt rn, .clickAttempt rn])
          | .error e =>
            (.error (.runtimeError ("Cannot select row " ++ toString row_index ++
               " in " ++ ct ++ " '" ++ nm ++ "': " ++ e.msg)),
             [.selectAttempt rn, .cellSelectAttempt rn, .clickAttempt rn])
      | [] =>
        match env.rowClick target with
        | .ok _ =>
          (.ok (gridRowMsg row_index ct nm), [.selectAttempt rn, .clickAttempt rn])
        | .error e =>
          (.error (.runtimeError ("Cannot select row " ++ toString row_index ++
             " in " ++ ct ++ " '" ++ nm ++ "': " ++ e.msg)),
           [.selectAttempt rn, .clickAttempt rn])

/-- C8: an index equal to the number of filtered rows, greater than it, or
negative makes `select_grid_row` fail with the IndexError naming the valid
bound `0-(len(rows)-1)`, and no selection is attempted on any row (the
action trace is empty). -/
theorem c8_grid_row_out_of_range (env : GridEnv) (g : Element) (row_index : Int)
    (h : row_index < 0 ∨ ((g.children.filter isGridRow).length : Int) ≤ row_index) :
    select_grid_row env g row_index =
      (.error (.indexError (gridRangeMsg row_index
         (g.children.filter isGridRow).length
         g.info.control_type g.info.name)), []) := by
  rw [select_grid_row]
  simp only [dif_pos h]

/-- Witness for C8: a grid with two data rows (a header row and a
scrollbar are filtered out) rejects index 2 with bound "0-1", and rejects
index -1. -/
theorem c8_witness :
    select_grid_row ⟨fun _ => true, fun _ => true, fun _ => .ok ()⟩
      (.node ⟨"Grid", "Table", ""⟩
        [.node ⟨"トップ行", "Custom", ""⟩ [],
         .node ⟨"Row 0", "Custom", ""⟩ [],
         .node ⟨"Row 1", "DataItem", ""⟩ [],
         .node ⟨"bar", "ScrollBar", ""⟩ []]) 2 =
      (.error (.indexError "Row index 2 out of range (0-1) in Table 'Grid'"), []) ∧
    select_grid_row ⟨fun _ => true, fun _ => true, fun _ => .ok ()⟩
      (.node ⟨"Grid", "Table", ""⟩
        [.node ⟨"トップ行", "Custom", ""⟩ [],
         .node ⟨"Row 0", "Custom", ""⟩ [],
         .node ⟨"Row 1", "DataItem", ""⟩ [],
         .node ⟨"bar", "ScrollBar", ""⟩ []]) (-1) =
      (.error (.indexError "Row index -1 out of range (0-1) in Table 'Grid'"), []) := by
  constructor
  · rw [c8_grid_row_out_of_range _ _ _ (by right; decide)]
    rfl
  · rw [c8_grid_row_out_of_range _ _ _ (by left; decide)]
    rfl

/-!
## Menu navigation (`WindowManager.select_menu`)

`menu_path` is split on "->" and each piece stripped (Python
`str.split("->")` / `str.strip()`, embedded character-recursively).  The
menu bar is the first `MenuBar` child whose name is neither "システム" nor
"System"; the first segment is opened by `_run_with_timeout(expand)`, with
an `invoke` fallback whose timed-out `RuntimeError` is swallowed; each
later segment is looked up among the window's descendants as the first
`MenuItem` with that name and invoked through `_run_with_timeout`, whose
observed result is carried in `MenuEnv.invokeResult` (likewise
`expandResult`); `MenuEnv.dialogName` is the window text of the dialog
`self._find_dialog()` reports inside the timeout handler, if any.  The
action trace records the wrapped pattern calls and the
`win.type_keys("\x7bESC\x7d")` press. -/

def pySplitArrowAux : List Char → List Char → List String
  | [], acc => [String.mk acc.reverse]
  | '-' :: '>' :: rest, acc => String.mk acc.reverse :: pySplitArrowAux rest []
  | ch :: rest, acc => pySplitArrowAux rest (ch :: acc)

/-- Python `menu_path.split("->")`: non-overlapping left-to-right splits. -/
def pySplitArrow (s : String) : List String :=
  pySplitArrowAux s.data []

def isPySpace (ch : Char) : Bool :=
  ch == ' ' || ch == '\t' || ch == '\n' || ch == '\r' || ch == '\x0b' || ch == '\x0c'

def dropSpaces : List Char → List Char
  | [] => []
  | ch :: t => if isPySpace ch then dropSpaces t else ch :: t

/-- Python `str.strip()` (ASCII whitespace). -/
def pyStrip (s : String) : String :=
  ⟨(dropSpaces (dropSpaces s.data).reverse).reverse⟩

structure MenuEnv where
  invokeResult : Element → Except AutoErr Unit
  expandResult : Element → Except AutoErr Unit
  dialogName : Option String

inductive MenuAction where
  | invokeAttempt (itemName : String)
  | expandAttempt (itemName : String)
  | escapePressed
deriving DecidableEq, Repr

/-- `dialog.element_info.name or "(untitled)"`. -/
def dialogDisplayName (n : String) : String :=
  if n == "" then "(untitled)" else n

def menuDialogMsg (menu_path title : String) : String :=
  "Selected menu: " ++ menu_path ++ ". A dialog appeared: '" ++ title ++
    "'. Use get_ui_tree to see the dialog contents."

def menuBusyMsg (menu_path : String) : String :=
  "Selected menu: " ++ menu_path ++
    ". The operation timed out but no dialog was detected. The application may be busy."

/-- First `MenuBar` child that is not the system menu bar. -/
def findMenuBar (win : Element) : Option Element :=
  win.children.find? (fun ch =>
    ch.info.control_type == "MenuBar" &&
      ch.info.name != "システム" && ch.info.name != "System")

/-- First descendant of the window that is a `MenuItem` named `seg`
(the `for d in win.descendants()` search). -/
def menuItemFind (win : Element) (seg : String) : Option Element :=
  win.strictDesc.find? (fun d =>
    d.info.control_type == "MenuItem" && d.info.name == seg)

/-- The `for i, segment in enumerate(segments[1:], 1)` loop of
`select_menu`, over the remaining segments. -/
def navMenu (env : MenuEnv) (win : Element) (menu_path : String) :
    List String → Except AutoErr String × List MenuAction
  | [] => (.ok ("Selected menu: " ++ menu_path), [])
  | seg :: rest =>
    match menuItemFind win seg with
    | none =>
      (.error (.lookupError ("Menu item '" ++ seg ++ "' not found")),
       [.escapePressed])
    | some d =>
      match env.invokeResult d with
      | .ok _ =>
        ((navMenu env win menu_path rest).1,
         .invokeAttempt d.info.name :: (navMenu env win menu_path rest).2)
      | .error (.runtimeError m) =>
        if containsSub m "timed out" then
          if rest.isEmpty then
            match env.dialogName with
            | some n =>
              (.ok (menuDialogMsg menu_path (dialogDisplayName n)),
               [.invokeAttempt d.info.name])
            | none =>
              (.ok (menuBusyMsg menu_path), [.invokeAttempt d.info.name])
          else
            ((navMenu env win menu_path rest).1,
             .invokeAttempt d.info.name :: (navMenu env win menu_path rest).2)
        else
          match env.expandResult d with
          | .ok _ =>
            ((navMenu env win menu_path rest).1,
             .invokeAttempt d.info.name :: .expandAttempt d.info.name ::
               (navMenu env win menu_path rest).2)
          | .error e2 =>
            (.error (.runtimeError ("Cannot click menu '" ++ seg ++ "': " ++ e2.msg)),
             [.invokeAttempt d.info.name, .expandAttempt d.info.name])
      | .error _ =>
        match env.expandResult d with
        | .ok _ =>
          ((navMenu env win menu_path rest).1,
           .invokeAttempt d.info.name :: .expandAttempt d.info.name ::
             (navMenu env win menu_path rest).2)
        | .error e2 =>
          (.error (.runtimeError ("Cannot click menu '" ++ seg ++ "': " ++ e2.msg)),
           [.invokeAttempt d.info.name, .expandAttempt d.info.name])

def select_menu (env : MenuEnv) (win : Element) (menu_path : String) :
    Except AutoErr String × List MenuAction :=
  match (pySplitArrow menu_path).map pyStrip with
  | [] => (.error (.valueError "Empty menu path"), [])
  | s0 :: rest =>
    match findMenuBar win with
    | none => (.error (.runtimeError "No menu bar found in the window"), [])
    | some mb =>
      match mb.children.find? (fun it => it.info.name == s0) with
      | none =>
        (.error (.lookupError ("Menu item '" ++ s0 ++ "' not found in menu bar")), [])
      | some current =>
        match env.expandResult current with
        | .ok _ =>
          ((navMenu env win menu_path rest).1,
           .expandAttempt current.info.name :: (navMenu env win menu_path rest).2)
        | .error _ =>
          match env.invokeResult current with
          | .ok _ =>
            ((navMenu env win menu_path rest).1,
             .expandAttempt current.info.name :: .invokeAttempt current.info.name ::
               (navMenu env win menu_path rest).2)
          | .error (.runtimeError m) =>
            if containsSub m "timed out" then
              ((navMenu env win menu_path rest).1,
               .expandAttempt current.info.name :: .invokeAttempt current.info.name ::
                 (navMenu env win menu_path rest).2)
            else
              (.error (.runtimeError ("Cannot open menu '" ++ s0 ++ "': " ++ m)),
               [.expandAttempt current.info.name, .invokeAttempt current.info.name])
          | .error e =>
            (.error (.runtimeError ("Cannot open menu '" ++ s0 ++ "': " ++ e.msg)),
             [.expandAttempt current.info.name, .invokeAttempt current.info.name])

/-- A window with a menu bar holding "A", and submenu items "B" and "C"
among the window's descendants. -/
def menuWinC1 : Element :=
  .node ⟨"Main", "Window", ""⟩
    [.node ⟨"", "MenuBar", ""⟩ [.node ⟨"A", "MenuItem", ""⟩ []],
     .node ⟨"B", "MenuItem", ""⟩ [],
     .node ⟨"C", "MenuItem", ""⟩ []]

/-- Invoking "B" times out; everything else succeeds; no dialog is open. -/
def menuEnvC1 : MenuEnv :=
  ⟨fun e => if e.info.name == "B" then .error (.runtimeError timeoutMsg) else .ok (),
   fun _ => .ok (), none⟩

/-- Counterexample to C1 as stated: on `"A->B->C"` the invoke of the
*middle* segment "B" times out, yet `select_menu` returns the plain
success message — the earlier-segment timeout is swallowed, not propagated
to the caller as a failure. -/
theorem c1_counterexample :
    (select_menu menuEnvC1 menuWinC1 "A->B->C").1 =
      Except.ok "Selected menu: A->B->C" := rfl

/-- C1 (amended): on a timed-out invoke of the *last* segment the result
is a non-error success message mentioning the detected dialog if one is
found; a timed-out invoke of an earlier segment is silently swallowed and
navigation continues with the next segment; an unmatched segment
dispatches an escape key-press and fails with NotFound; and `select_menu`
runs this loop on the stripped "->"-split segments after opening the
first one. -/
theorem c1_menu_navigation_amended (env : MenuEnv) (win : Element) (menu_path : String) :
    (∀ seg d m, menuItemFind win seg = some d →
      env.invokeResult d = .error (.runtimeError m) →
      containsSub m "timed out" = true →
      navMenu env win menu_path [seg] =
        match env.dialogName with
        | some n => (.ok (menuDialogMsg menu_path (dialogDisplayName n)),
                     [.invokeAttempt d.info.name])
        | none => (.ok (menuBusyMsg menu_path), [.invokeAttempt d.info.name])) ∧
    (∀ seg rest d m, rest ≠ [] → menuItemFind win seg = some d →
      env.invokeResult d = .error (.runtimeError m) →
      containsSub m "timed out" = true →
      navMenu env win menu_path (seg :: rest) =
        ((navMenu env win menu_path rest).1,
         .invokeAttempt d.info.name :: (navMenu env win menu_path rest).2)) ∧
    (∀ seg rest, menuItemFind win seg = none →
      navMenu env win menu_path (seg :: rest) =
        (.error (.lookupError ("Menu item '" ++ seg ++ "' not found")),
         [.escapePressed])) ∧
    (∀ s0 rest mb current,
      (pySplitArrow menu_path).map pyStrip = s0 :: rest →
      findMenuBar win = some mb →
      mb.children.find? (fun it => it.info.name == s0) = some current →
      env.expandResult current = .ok () →
      select_menu env win menu_path =
        ((navMenu env win menu_path rest).1,
         .expandAttempt current.info.name :: (navMenu env win menu_path rest).2)) := by
  refine ⟨?_, ?_, ?_, ?_⟩
  · intro seg d m h1 h2 h3
    simp [navMenu, h1, h2, h3]
  · intro seg rest d m hne h1 h2 h3
    cases rest with
    | nil => exact absurd rfl hne
    | cons r rs => simp [navMenu, h1, h2, h3]
  · intro seg rest h
    simp [navMenu, h]
  · intro s0 rest mb current hsplit hmb hfind hexp
    simp [select_menu, hsplit, hmb, hfind, hexp]

/-- Invoking "C" times out and a dialog titled "Confirm" is then open. -/
def menuEnvC1b : MenuEnv :=
  ⟨fun e => if e.info.name == "C" then .error (.runtimeError timeoutMsg) else .ok (),
   fun _ => .ok (), some "Confirm"⟩

/-- Witness for the amended C1: a last-segment timeout with a detected
dialog is reported as a success message naming the dialog, and an
unmatched segment presses escape before failing with NotFound. -/
theorem c1_witness :
    navMenu menuEnvC1b menuWinC1 "A->C" ["C"] =
      (.ok (menuDialogMsg "A->C" "Confirm"), [.invokeAttempt "C"]) ∧
    navMenu menuEnvC1b menuWinC1 "A->X" ["X"] =
      (.error (.lookupError "Menu item 'X' not found"), [.escapePressed]) := by
  constructor
  · rw [(c1_menu_navigation_amended menuEnvC1b menuWinC1 "A->C").1 "C"
      (.node ⟨"C", "MenuItem", ""⟩ []) timeoutMsg rfl rfl (by decide)]
    rfl
  · exact (c1_menu_navigation_amended menuEnvC1b menuWinC1 "A->X").2.2.1 "X" [] rfl

/-!
## Window Set Manager (`list_windows` / `switch_window`)

src/server.py exposes the tools `list_windows` and `switch_window`, whose
bodies call `wm.list_windows()` and `wm.switch_window(title=..., index=...)`
on the module-level `WindowManager` instance.  The `WindowManager` class in
src/automation.py, however, defines no such methods, so in Python the
attribute lookup raises `AttributeError`, which the tools' `except
Exception` clause reduces to an "Error: ..." string.  The class's method
table is embedded literally so this can be stated.
-/

/-- The names defined in the body of `class WindowManager` in
src/automation.py, in source order. -/
def windowManagerMethods : List String :=
  ["__init__", "_find_dialog", "window", "connect", "get_ui_tree",
   "find_element", "_click_timeout_message", "click", "set_text",
   "get_text", "select_item", "select_grid_row", "select_menu",
   "close_window", "send_keys", "save_screenshot"]

/-- Python attribute dispatch for a tool body `wm.<method>(...)` wrapped in
the server's `try/except Exception` handler: a method that exists runs and
its string result is returned; a missing method raises `AttributeError`,
reduced to the error string. -/
def serverToolCall (method : String) (run : Unit → String) : String :=
  if windowManagerMethods.contains method then run ()
  else "Error: 'WindowManager' object has no attribute '" ++ method ++ "'"

/-- C9 is a code bug: `WindowManager` defines neither `list_windows` nor
`switch_window`, so the corresponding server tools always return an
attribute-error string instead of performing the documented operations. -/
theorem c9_window_set_manager_missing :
    windowManagerMethods.contains "list_windows" = false ∧
    windowManagerMethods.contains "switch_window" = false ∧
    (∀ run : Unit → String, serverToolCall "list_windows" run =
      "Error: 'WindowManager' object has no attribute 'list_windows'") ∧
    (∀ run : Unit → String, serverToolCall "switch_window" run =
      "Error: 'WindowManager' object has no attribute 'switch_window'") := by
  exact ⟨by decide, by decide, fun run => rfl, fun run => rfl⟩
